import Mathlib

/-!
Shallow embedding of the ajo-api ROSCA core: the triple-ledger wallet
(models/user_schema.js), the circle and backstop-reserve data model
(models/Circles.js, models/BackstopReserve.js), the settlement engine
(services/CycleManager.js) and the circle-join validation middleware.
Monetary amounts are embedded as exact rationals; user documents are keyed
by natural-number ids, and the user store is a total function from ids to
user records.
-/

namespace Ajo

/-- Payment status of a circle member for the current cycle
(models/Circles.js `members.paymentStatus`). -/
inductive PaymentStatus
  | Pending
  | Paid
  | Defaulted
  | Excused
deriving DecidableEq, Repr

/-- User tier (models/user_schema.js `USER_TIERS`). -/
inductive UserTier
  | Bronze
  | Silver
  | Gold
deriving DecidableEq, Repr

/-- Account status (models/user_schema.js `USER_STATUSES`). -/
inductive UserStatus
  | Active
  | Frozen
  | Blacklisted
deriving DecidableEq, Repr

/-- Circle status (models/Circles.js `status` enum). -/
inductive CircleStatus
  | Forming
  | Active
  | Paused
  | Completed
  | Defaulted
deriving DecidableEq, Repr

/-- Blacklist reason (models/user_schema.js `blacklistReason` enum). -/
inductive BlacklistReason
  | ExcessiveDebt
  | Fraud
  | ManualReview
deriving DecidableEq, Repr

/-- Triple-ledger wallet (models/user_schema.js `wallet`). -/
structure Wallet where
  availableBalance : ℚ
  vaultBalance : ℚ
  debtBalance : ℚ
deriving DecidableEq, Repr

/-- A user document (models/user_schema.js), restricted to the fields the
core logic reads or writes. -/
structure User where
  wallet : Wallet
  trustScore : ℤ
  userTier : UserTier
  status : UserStatus
  activeCircles : List ℕ
  blacklistedAt : Option ℕ
  blacklistReason : Option BlacklistReason
deriving DecidableEq, Repr

/-- One member entry of a circle (models/Circles.js `members` subdocument). -/
structure Member where
  user : ℕ
  paymentStatus : PaymentStatus
  totalContributionsMade : ℕ
deriving DecidableEq, Repr

/-- A circle document (models/Circles.js), restricted to the fields the
settlement engine reads or writes. -/
structure Circle where
  id : ℕ
  contributionAmount : ℚ
  totalPot : ℚ
  payoutOrder : List ℕ
  currentTurn : ℕ
  cycleCount : ℕ
  members : List Member
  backstopBalance : ℚ
  totalFeesCollected : ℚ
  status : CircleStatus
deriving DecidableEq, Repr

/-- One backstop loan record (models/BackstopReserve.js `activeLoans`). -/
structure Loan where
  circle : ℕ
  amount : ℚ
  defaultedUser : ℕ
deriving DecidableEq, Repr

/-- The platform-wide backstop reserve singleton (models/BackstopReserve.js). -/
structure BackstopReserve where
  balance : ℚ
  totalDeployed : ℚ
  activeLoans : List Loan
deriving DecidableEq, Repr

/-- models/user_schema.js `DEBT_BLACKLIST_THRESHOLD` (minor units). -/
def DEBT_BLACKLIST_THRESHOLD : ℚ := 500000

/-- models/user_schema.js `TRUST_SCORE_RANGE.min`. -/
def TRUST_MIN : ℤ := 300

/-- models/user_schema.js `TRUST_SCORE_RANGE.max`. -/
def TRUST_MAX : ℤ := 850

/-- Tier recomputation from trust score, from the pre-save middleware in
models/user_schema.js (≥750 Gold, ≥550 Silver, else Bronze). -/
def recomputeTier (trustScore : ℤ) : UserTier :=
  if trustScore ≥ 750 then UserTier.Gold
  else if trustScore ≥ 550 then UserTier.Silver
  else UserTier.Bronze

/-- The `UserSchema.pre('save')` middleware of models/user_schema.js.
`debtModified` and `trustModified` model Mongoose's `isModified` flags for
`wallet.debtBalance` and `trustScore`; `now` is the timestamp used for
`new Date()`. The middleware blacklists when debt strictly exceeds the
threshold and the account is not yet blacklisted, then recomputes the tier. -/
def preSaveHook (debtModified trustModified : Bool) (now : ℕ) (u : User) : User :=
  let u1 :=
    if debtModified = true ∧ u.wallet.debtBalance > DEBT_BLACKLIST_THRESHOLD ∧
        u.status ≠ UserStatus.Blacklisted then
      { u with status := UserStatus.Blacklisted,
               blacklistedAt := some now,
               blacklistReason := some BlacklistReason.ExcessiveDebt }
    else u
  if trustModified = true then { u1 with userTier := recomputeTier u1.trustScore }
  else u1

/-- `UserSchema.methods.applyDefaultPenalty` of models/user_schema.js:
adds `baseAmount × (1 + 0.05)` to debt, drops trustScore by 50 floored at
300, then saves (running the pre-save middleware with debt and trustScore
modified). -/
def applyDefaultPenalty (now : ℕ) (baseAmount : ℚ) (u : User) : User :=
  let totalOwed := baseAmount * (1 + 5 / 100)
  let u1 := { u with wallet :=
    { u.wallet with debtBalance := u.wallet.debtBalance + totalOwed } }
  let u2 := { u1 with trustScore := max TRUST_MIN (u1.trustScore - 50) }
  preSaveHook true true now u2

/-- Errors of `repayDebt`, named as in the spec's error model for the
`throw new Error` sites of models/user_schema.js. -/
inductive RepayError
  | InsufficientFunds
  | OverpaymentRejected
deriving DecidableEq, Repr

/-- `UserSchema.methods.repayDebt` of models/user_schema.js. Returns the
updated user together with the remaining debt. The final save runs the
pre-save middleware with debt and trustScore modified. -/
def repayDebt (now : ℕ) (amount : ℚ) (u : User) : Except RepayError (User × ℚ) :=
  let available := u.wallet.availableBalance
  let debt := u.wallet.debtBalance
  if amount > available then Except.error RepayError.InsufficientFunds
  else if amount > debt then Except.error RepayError.OverpaymentRejected
  else
    let u1 := { u with wallet :=
      { u.wallet with availableBalance := available - amount,
                      debtBalance := debt - amount } }
    let u2 := { u1 with trustScore := min TRUST_MAX (u1.trustScore + 10) }
    let u3 :=
      if u2.wallet.debtBalance = 0 ∧ u2.status = UserStatus.Frozen then
        { u2 with status := UserStatus.Active }
      else u2
    let u4 := preSaveHook true true now u3
    Except.ok (u4, u4.wallet.debtBalance)

/-- Tier limits on concurrent circles
(models/user_schema.js `canJoinCircle`, `tierLimits`). -/
def tierLimits : UserTier → ℕ
  | UserTier.Bronze => 2
  | UserTier.Silver => 5
  | UserTier.Gold => 10

/-- Denial grounds of `UserSchema.methods.canJoinCircle`
(models/user_schema.js). `none` means allowed. -/
inductive CanJoinDenial
  | blacklisted
  | frozen
  | tierLimit
deriving DecidableEq, Repr

/-- `UserSchema.methods.canJoinCircle` of models/user_schema.js:
checks blacklist, then frozen, then the tier limit on active circles. -/
def canJoinCircle (u : User) : Option CanJoinDenial :=
  if u.status = UserStatus.Blacklisted then some CanJoinDenial.blacklisted
  else if u.status = UserStatus.Frozen then some CanJoinDenial.frozen
  else if u.activeCircles.length ≥ tierLimits u.userTier then some CanJoinDenial.tierLimit
  else none

/-- The deny codes surfaced by the `validateCircleEntry` middleware
(services/CycleManager.js, circle-join validation). -/
inductive JoinDenialCode
  | BLACKLISTED
  | ACTIVE_DEBT
  | FROZEN
  | TIER_LIMIT
  | LOW_TRUST
deriving DecidableEq, Repr

/-- The `validateCircleEntry` middleware: checks in order blacklist,
outstanding debt, frozen status, `canJoinCircle` (surfaced as TIER_LIMIT),
and minimum trust score 350. `none` means the join proceeds. -/
def validateCircleEntry (u : User) : Option JoinDenialCode :=
  if u.status = UserStatus.Blacklisted then some JoinDenialCode.BLACKLISTED
  else if u.wallet.debtBalance > 0 then some JoinDenialCode.ACTIVE_DEBT
  else if u.status = UserStatus.Frozen then some JoinDenialCode.FROZEN
  else if (canJoinCircle u).isSome then some JoinDenialCode.TIER_LIMIT
  else if u.trustScore < 350 then some JoinDenialCode.LOW_TRUST
  else none

/-- The join check as the spec's claim describes it: a priority cascade
Blacklisted → ActiveDebt → Frozen → TierLimit → LowTrust with
tierLimit = \x7bBronze:2, Silver:5, Gold:10\x7d and trust threshold 350.
Stated from the spec's words, to be compared with `validateCircleEntry`. -/
def joinCheckSpec (u : User) : Option JoinDenialCode :=
  if u.status = UserStatus.Blacklisted then some JoinDenialCode.BLACKLISTED
  else if u.wallet.debtBalance > 0 then some JoinDenialCode.ACTIVE_DEBT
  else if u.status = UserStatus.Frozen then some JoinDenialCode.FROZEN
  else if u.activeCircles.length ≥ tierLimits u.userTier then some JoinDenialCode.TIER_LIMIT
  else if u.trustScore < 350 then some JoinDenialCode.LOW_TRUST
  else none

/-- Number of members whose paymentStatus is Paid this cycle
(STEP 1 of services/CycleManager.js `processCirclePayout`). -/
def paidCount (c : Circle) : ℕ :=
  (c.members.filter (fun m => m.paymentStatus = PaymentStatus.Paid)).length

/-- `shortfall = expectedTotal − actualCollected`
(STEP 1 of `processCirclePayout`). -/
def circleShortfall (c : Circle) : ℚ :=
  c.totalPot - paidCount c * c.contributionAmount

/-- `platformFee = expectedTotal × 0.015` (STEP 2 of `processCirclePayout`). -/
def platformFeeOf (c : Circle) : ℚ :=
  c.totalPot * (15 / 1000)

/-- The `currentRecipient` virtual of models/Circles.js:
`payoutOrder[currentTurn % payoutOrder.length]`, `none` when empty. -/
def currentRecipient (c : Circle) : Option ℕ :=
  if c.payoutOrder.length = 0 then none
  else c.payoutOrder.get? (c.currentTurn % c.payoutOrder.length)

/-- Tier-based vault withholding rates
(STEP 4 of `processCirclePayout`, `withholdingRates`). -/
def withholdingRate : UserTier → ℚ
  | UserTier.Bronze => 20 / 100
  | UserTier.Silver => 10 / 100
  | UserTier.Gold => 10 / 100

/-- Errors surfaced by `processCirclePayout`, named as in the spec's error
model for the `throw new Error` sites of services/CycleManager.js. -/
inductive PayoutError
  | CircleNotActive
  | RecipientNotFound
  | ReserveInsufficient
deriving DecidableEq, Repr

/-- The settlement receipt returned by `processCirclePayout`. -/
structure Receipt where
  grossAmount : ℚ
  platformFee : ℚ
  netPayout : ℚ
  withheldInVault : ℚ
  availableNow : ℚ
  defaultsCovered : ℕ
  backstopLoan : ℚ
  nextTurn : ℕ
deriving DecidableEq, Repr

/-- The mutable aggregates a settlement touches: the circle, the global
backstop reserve, and the user store. -/
structure St where
  circle : Circle
  reserve : BackstopReserve
  users : ℕ → User

/-- `completeCircle` of services/CycleManager.js: sets status Completed and,
for each member whose vault is positive, moves the whole vault to available,
zeroes the vault, and removes the circle from the member's activeCircles;
members with a zero vault are not touched. Each processed user is saved
(pre-save middleware with neither debt nor trustScore modified).
`releaseStep` is the body of the source's `for (const memberRef of
circle.members)` loop, one iteration of the vault release. -/
def releaseStep (circleId : ℕ) (now : ℕ) (us : ℕ → User) (m : Member) : ℕ → User :=
  let user := us m.user
  let vaultAmount := user.wallet.vaultBalance
  if vaultAmount > 0 then
    let user1 := { user with wallet :=
      { user.wallet with
          availableBalance := user.wallet.availableBalance + vaultAmount,
          vaultBalance := 0 } }
    let user2 := { user1 with
      activeCircles := user1.activeCircles.filter (fun cid => cid ≠ circleId) }
    let user3 := preSaveHook false false now user2
    fun uid => if uid = m.user then user3 else us uid
  else us

/-- `completeCircle` of services/CycleManager.js: sets status Completed and
folds `releaseStep` over the members. -/
def completeCircle (now : ℕ) (circle : Circle) (users : ℕ → User) :
    Circle × (ℕ → User) :=
  let circle1 := { circle with status := CircleStatus.Completed }
  let users1 := circle1.members.foldl (releaseStep circle1.id now) users
  (circle1, users1)

/-- `processCirclePayout` of services/CycleManager.js, the payout settlement
engine, as an atomic transaction: on error nothing is committed and the
caller observes the input state unchanged. Steps, exactly as in the source:
collection accounting, 1.5% fee credited to the circle counters and the
reserve, shortfall coverage from the reserve with per-defaulter loans and
penalties, tier-based withholding, recipient ledger credit with +5 trust,
rotation advance with status reset, and completion on final wrap-around. -/
def processCirclePayout (now : ℕ) (s : St) : Except PayoutError (St × Receipt) :=
  let circle := s.circle
  if circle.status ≠ CircleStatus.Active then Except.error PayoutError.CircleNotActive
  else
    match currentRecipient circle with
    | none => Except.error PayoutError.RecipientNotFound
    | some recipientId =>
      let recipient := s.users recipientId
      let contributionAmount := circle.contributionAmount
      let expectedTotal := circle.totalPot
      let shortfall := circleShortfall circle
      let defaultCount := circle.members.length - paidCount circle
      let platformFee := platformFeeOf circle
      let netPayout := expectedTotal - platformFee
      let circle1 := { circle with
        backstopBalance := circle.backstopBalance + platformFee,
        totalFeesCollected := circle.totalFeesCollected + platformFee }
      let reserve1 := { s.reserve with balance := s.reserve.balance + platformFee }
      if shortfall > 0 ∧ reserve1.balance < shortfall then
        Except.error PayoutError.ReserveInsufficient
      else
        let step3 : BackstopReserve × (ℕ → User) × Circle × ℚ :=
          if shortfall > 0 then
            let reserve2 := { reserve1 with
              balance := reserve1.balance - shortfall,
              totalDeployed := reserve1.totalDeployed + shortfall }
            let defaulters := circle1.members.filter
              (fun m => m.paymentStatus ≠ PaymentStatus.Paid)
            let reserve3 := { reserve2 with
              activeLoans := reserve2.activeLoans ++ defaulters.map
                (fun d => Loan.mk circle1.id contributionAmount d.user) }
            let users2 := defaulters.foldl (fun us d =>
              let penalized := applyDefaultPenalty now contributionAmount (us d.user)
              fun uid => if uid = d.user then penalized else us uid) s.users
            let circle2 := { circle1 with members := circle1.members.map (fun m =>
              if m.paymentStatus ≠ PaymentStatus.Paid then
                { m with paymentStatus := PaymentStatus.Defaulted }
              else m) }
            (reserve3, users2, circle2, shortfall)
          else (reserve1, s.users, circle1, (0 : ℚ))
        let reserve4 := step3.1
        let users3 := step3.2.1
        let circle3 := step3.2.2.1
        let backstopLoan := step3.2.2.2
        let vaultAmount := netPayout * withholdingRate recipient.userTier
        let availableAmount := netPayout - vaultAmount
        let recipient1 := { recipient with wallet :=
          { recipient.wallet with
              availableBalance := recipient.wallet.availableBalance + availableAmount,
              vaultBalance := recipient.wallet.vaultBalance + vaultAmount } }
        let recipient2 := { recipient1 with
          trustScore := min 850 (recipient1.trustScore + 5) }
        let recipient3 := preSaveHook false true now recipient2
        let users4 := fun uid => if uid = recipientId then recipient3 else users3 uid
        let circle4 := { circle3 with
          currentTurn := (circle3.currentTurn + 1) % circle3.payoutOrder.length }
        let circle5 : Circle := { circle4 with members := circle4.members.map (fun m =>
          { m with
              totalContributionsMade :=
                if m.paymentStatus = PaymentStatus.Paid then
                  m.totalContributionsMade + 1
                else m.totalContributionsMade,
              paymentStatus := PaymentStatus.Pending }) }
        let final : Circle × (ℕ → User) :=
          if circle5.currentTurn = 0 then
            let circle6 : Circle := { circle5 with cycleCount := circle5.cycleCount + 1 }
            if circle6.cycleCount ≥ circle6.payoutOrder.length then
              completeCircle now circle6 users4
            else (circle6, users4)
          else (circle5, users4)
        Except.ok
          ({ circle := final.1, reserve := reserve4, users := final.2 },
           { grossAmount := expectedTotal,
             platformFee := platformFee,
             netPayout := netPayout,
             withheldInVault := vaultAmount,
             availableNow := availableAmount,
             defaultsCovered := defaultCount,
             backstopLoan := backstopLoan,
             nextTurn := final.1.currentTurn })

/-- Full collection for one cycle: every member has paymentStatus Paid
(the effect of a `processContribution` call by each member, as in
services/CycleManager.js). -/
def markAllPaid (c : Circle) : Circle :=
  { c with members := c.members.map (fun m => { m with paymentStatus := PaymentStatus.Paid }) }

/-- Run `k` consecutive payout rounds, each preceded by full collection;
stops at the first settlement error. -/
def runRounds (now : ℕ) : ℕ → St → Except PayoutError St
  | 0, s => Except.ok s
  | k + 1, s =>
    match processCirclePayout now { s with circle := markAllPaid s.circle } with
    | Except.ok (s', _) => runRounds now k s'
    | Except.error e => Except.error e

section StructuralLemmas

lemma preSaveHook_ff (now : ℕ) (u : User) : preSaveHook false false now u = u := by
  simp [preSaveHook]

lemma preSaveHook_wallet (dm tm : Bool) (now : ℕ) (u : User) :
    (preSaveHook dm tm now u).wallet = u.wallet := by
  unfold preSaveHook
  split_ifs <;> rfl

lemma preSaveHook_trustScore (dm tm : Bool) (now : ℕ) (u : User) :
    (preSaveHook dm tm now u).trustScore = u.trustScore := by
  unfold preSaveHook
  split_ifs <;> rfl

lemma preSaveHook_activeCircles (dm tm : Bool) (now : ℕ) (u : User) :
    (preSaveHook dm tm now u).activeCircles = u.activeCircles := by
  unfold preSaveHook
  split_ifs <;> rfl

lemma preSaveHook_status (dm tm : Bool) (now : ℕ) (u : User) :
    (preSaveHook dm tm now u).status =
      (if dm = true ∧ u.wallet.debtBalance > DEBT_BLACKLIST_THRESHOLD ∧
          u.status ≠ UserStatus.Blacklisted then UserStatus.Blacklisted
       else u.status) := by
  unfold preSaveHook
  split_ifs <;> rfl

lemma preSaveHook_blacklistedAt (dm tm : Bool) (now : ℕ) (u : User) :
    (preSaveHook dm tm now u).blacklistedAt =
      (if dm = true ∧ u.wallet.debtBalance > DEBT_BLACKLIST_THRESHOLD ∧
          u.status ≠ UserStatus.Blacklisted then some now
       else u.blacklistedAt) := by
  unfold preSaveHook
  split_ifs <;> rfl

lemma preSaveHook_blacklistReason (dm tm : Bool) (now : ℕ) (u : User) :
    (preSaveHook dm tm now u).blacklistReason =
      (if dm = true ∧ u.wallet.debtBalance > DEBT_BLACKLIST_THRESHOLD ∧
          u.status ≠ UserStatus.Blacklisted then some BlacklistReason.ExcessiveDebt
       else u.blacklistReason) := by
  unfold preSaveHook
  split_ifs <;> rfl

lemma markAllPaid_paidCount (c : Circle) :
    paidCount (markAllPaid c) = c.members.length := by
  simp [markAllPaid, paidCount, List.filter_map, Function.comp]

lemma markAllPaid_shortfall (c : Circle) :
    circleShortfall (markAllPaid c) =
      c.totalPot - c.members.length * c.contributionAmount := by
  simp only [circleShortfall, markAllPaid_paidCount]
  simp [markAllPaid]

lemma currentRecipient_isSome (c : Circle) (h : c.payoutOrder ≠ []) :
    (currentRecipient c).isSome = true := by
  have hlen : c.payoutOrder.length ≠ 0 := by
    simpa [List.length_eq_zero] using h
  have hlt : c.currentTurn % c.payoutOrder.length < c.payoutOrder.length :=
    Nat.mod_lt _ (Nat.pos_of_ne_zero hlen)
  simp [currentRecipient, hlen, List.getElem?_eq_getElem hlt]

end StructuralLemmas

section PayoutShape

/-- Everything a successful settlement determines about the receipt, the
reserve, and the circle's control fields, in terms of the input state. -/
lemma payout_ok_spec (now : ℕ) (s s' : St) (r : Receipt)
    (h : processCirclePayout now s = Except.ok (s', r)) :
    s.circle.status = CircleStatus.Active ∧
    r.grossAmount = s.circle.totalPot ∧
    r.platformFee = platformFeeOf s.circle ∧
    r.netPayout = s.circle.totalPot - platformFeeOf s.circle ∧
    r.availableNow = r.netPayout - r.withheldInVault ∧
    r.backstopLoan =
      (if 0 < circleShortfall s.circle then circleShortfall s.circle else 0) ∧
    s'.reserve.balance = s.reserve.balance + platformFeeOf s.circle - r.backstopLoan ∧
    s'.reserve.totalDeployed = s.reserve.totalDeployed + r.backstopLoan ∧
    s'.circle.id = s.circle.id ∧
    s'.circle.payoutOrder = s.circle.payoutOrder ∧
    s'.circle.contributionAmount = s.circle.contributionAmount ∧
    s'.circle.totalPot = s.circle.totalPot ∧
    s'.circle.members.length = s.circle.members.length ∧
    s'.circle.currentTurn = (s.circle.currentTurn + 1) % s.circle.payoutOrder.length ∧
    s'.circle.cycleCount =
      (if (s.circle.currentTurn + 1) % s.circle.payoutOrder.length = 0 then
        s.circle.cycleCount + 1 else s.circle.cycleCount) ∧
    s'.circle.status =
      (if (s.circle.currentTurn + 1) % s.circle.payoutOrder.length = 0 ∧
          s.circle.payoutOrder.length ≤ s.circle.cycleCount + 1 then
        CircleStatus.Completed else CircleStatus.Active) := by
  simp only [processCirclePayout] at h
  split at h
  · exact absurd h (by simp)
  · next hActive =>
    have hAct : s.circle.status = CircleStatus.Active := by
      by_contra hc
      exact hActive hc
    split at h
    · exact absurd h (by simp)
    · next rid hrec =>
      split at h
      · exact absurd h (by simp)
      · next hres =>
        by_cases hsf : circleShortfall s.circle > 0 <;>
          by_cases hwrap : (s.circle.currentTurn + 1) % s.circle.payoutOrder.length = 0 <;>
            by_cases hfin : s.circle.payoutOrder.length ≤ s.circle.cycleCount + 1 <;>
              [skip; skip; skip; skip; skip; skip; skip; skip] <;>
          simp only [hsf, hwrap, hfin, hAct, if_true, if_false, ite_true, ite_false,
            and_true, true_and, and_false, false_and, if_pos, if_neg, not_false_iff,
            ge_iff_le, completeCircle] at h <;>
          rw [Except.ok.injEq, Prod.mk.injEq] at h <;>
          obtain ⟨hs, hr⟩ := h <;> subst hs <;> subst hr <;>
          refine ⟨hAct, rfl, rfl, rfl, rfl, ?_, ?_, ?_, ?_, ?_, ?_, ?_, ?_, ?_, ?_, ?_⟩ <;>
          simp [completeCircle, hsf, hwrap, hfin, hAct]

end PayoutShape

section JoinValidation

/-- C9: the circle-join check denies with BLACKLISTED for a blacklisted
account, ACTIVE_DEBT for outstanding debt, FROZEN for a frozen account,
TIER_LIMIT when the active-circle count reaches the tier limit
(Bronze 2, Silver 5, Gold 10), and LOW_TRUST when trustScore < 350, the
checks applied in the pinned order
Blacklisted → ActiveDebt → Frozen → TierLimit → LowTrust. -/
theorem join_check_pinned_order (u : User) :
    validateCircleEntry u = joinCheckSpec u := by
  unfold validateCircleEntry joinCheckSpec canJoinCircle
  split_ifs <;> simp_all

end JoinValidation

section DebtOperations

/-- C8: repayDebt fails with InsufficientFunds when the amount exceeds the
available balance, fails with OverpaymentRejected when it exceeds the debt,
and otherwise decreases available and debt by exactly the amount, bumps
trustScore by 10 capped at 850, and unfreezes the account when the debt is
fully cleared and the account was Frozen. -/
theorem repayDebt_spec (now : ℕ) (amount : ℚ) (u : User) :
    (amount > u.wallet.availableBalance →
      repayDebt now amount u = Except.error RepayError.InsufficientFunds) ∧
    (amount ≤ u.wallet.availableBalance → amount > u.wallet.debtBalance →
      repayDebt now amount u = Except.error RepayError.OverpaymentRejected) ∧
    (amount ≤ u.wallet.availableBalance → amount ≤ u.wallet.debtBalance →
      ∃ u' : User,
        repayDebt now amount u = Except.ok (u', u.wallet.debtBalance - amount) ∧
        u'.wallet.availableBalance = u.wallet.availableBalance - amount ∧
        u'.wallet.debtBalance = u.wallet.debtBalance - amount ∧
        u'.trustScore = min 850 (u.trustScore + 10) ∧
        (u.wallet.debtBalance - amount = 0 → u.status = UserStatus.Frozen →
          u'.status = UserStatus.Active)) := by
  refine ⟨fun hgt => ?_, fun hle hgt => ?_, fun hle hle2 => ?_⟩
  · simp [repayDebt, hgt]
  · simp [repayDebt, hgt, not_lt.mpr hle]
  · have h1 : ¬ u.wallet.availableBalance < amount := not_lt.mpr hle
    have h2 : ¬ u.wallet.debtBalance < amount := not_lt.mpr hle2
    simp only [repayDebt, gt_iff_lt, if_neg h1, if_neg h2]
    split
    · next hz =>
      refine ⟨preSaveHook true true now
        { wallet := { availableBalance := u.wallet.availableBalance - amount,
                      vaultBalance := u.wallet.vaultBalance,
                      debtBalance := u.wallet.debtBalance - amount },
          trustScore := min TRUST_MAX (u.trustScore + 10), userTier := u.userTier,
          status := UserStatus.Active, activeCircles := u.activeCircles,
          blacklistedAt := u.blacklistedAt,
          blacklistReason := u.blacklistReason }, ?_, ?_, ?_, ?_, ?_⟩
      · rw [preSaveHook_wallet]
      · rw [preSaveHook_wallet]
      · rw [preSaveHook_wallet]
      · rw [preSaveHook_trustScore]
        rfl
      · intro hd0 hfr
        rw [preSaveHook_status, if_neg]
        simp only [not_and]
        intro hdm hdebt
        exact absurd (by simpa [hz.1] using hdebt)
          (by norm_num [DEBT_BLACKLIST_THRESHOLD])
    · next hz =>
      refine ⟨preSaveHook true true now
        { wallet := { availableBalance := u.wallet.availableBalance - amount,
                      vaultBalance := u.wallet.vaultBalance,
                      debtBalance := u.wallet.debtBalance - amount },
          trustScore := min TRUST_MAX (u.trustScore + 10), userTier := u.userTier,
          status := u.status, activeCircles := u.activeCircles,
          blacklistedAt := u.blacklistedAt,
          blacklistReason := u.blacklistReason }, ?_, ?_, ?_, ?_, ?_⟩
      · rw [preSaveHook_wallet]
      · rw [preSaveHook_wallet]
      · rw [preSaveHook_wallet]
      · rw [preSaveHook_trustScore]
        rfl
      · intro hd0 hfr
        exact absurd ⟨hd0, hfr⟩ hz

/-- A Frozen user with available 200 and debt 100, exercising all three
branches of `repayDebt`. -/
def uRepay : User :=
  { wallet := { availableBalance := 200, vaultBalance := 0, debtBalance := 100 },
    trustScore := 400, userTier := UserTier.Bronze, status := UserStatus.Frozen,
    activeCircles := [], blacklistedAt := none, blacklistReason := none }

/-- Witness for C8 at uRepay: amount 300 exceeds available, amount 150
exceeds debt, and amount 100 clears the debt and unfreezes the account. -/
theorem repayDebt_spec_witness :
    repayDebt 0 300 uRepay = Except.error RepayError.InsufficientFunds ∧
    repayDebt 0 150 uRepay = Except.error RepayError.OverpaymentRejected ∧
    ∃ u' : User, repayDebt 0 100 uRepay = Except.ok (u', 0) ∧
      u'.wallet.availableBalance = 100 ∧ u'.wallet.debtBalance = 0 ∧
      u'.trustScore = 410 ∧ u'.status = UserStatus.Active := by
  refine ⟨(repayDebt_spec 0 300 uRepay).1 (by norm_num [uRepay]),
    (repayDebt_spec 0 150 uRepay).2.1 (by norm_num [uRepay]) (by norm_num [uRepay]), ?_⟩
  obtain ⟨u', hok, ha, hd, ht, hs⟩ :=
    (repayDebt_spec 0 100 uRepay).2.2 (by norm_num [uRepay]) (by norm_num [uRepay])
  refine ⟨u', ?_, ?_, ?_, ?_, ?_⟩
  · simpa [uRepay] using hok
  · rw [ha]
    norm_num [uRepay]
  · rw [hd]
    norm_num [uRepay]
  · rw [ht]
    norm_num [uRepay]
  · exact hs (by norm_num [uRepay]) rfl

lemma applyDefaultPenalty_wallet (now : ℕ) (b : ℚ) (u : User) :
    (applyDefaultPenalty now b u).wallet =
      { u.wallet with debtBalance := u.wallet.debtBalance + b * (1 + 5 / 100) } := by
  simp [applyDefaultPenalty, preSaveHook_wallet]

lemma applyDefaultPenalty_status (now : ℕ) (b : ℚ) (u : User) :
    (applyDefaultPenalty now b u).status =
      (if u.wallet.debtBalance + b * (1 + 5 / 100) > DEBT_BLACKLIST_THRESHOLD ∧
          u.status ≠ UserStatus.Blacklisted then UserStatus.Blacklisted
       else u.status) := by
  simp [applyDefaultPenalty, preSaveHook_status]

lemma applyDefaultPenalty_blacklistedAt (now : ℕ) (b : ℚ) (u : User) :
    (applyDefaultPenalty now b u).blacklistedAt =
      (if u.wallet.debtBalance + b * (1 + 5 / 100) > DEBT_BLACKLIST_THRESHOLD ∧
          u.status ≠ UserStatus.Blacklisted then some now
       else u.blacklistedAt) := by
  simp [applyDefaultPenalty, preSaveHook_blacklistedAt]

lemma applyDefaultPenalty_blacklistReason (now : ℕ) (b : ℚ) (u : User) :
    (applyDefaultPenalty now b u).blacklistReason =
      (if u.wallet.debtBalance + b * (1 + 5 / 100) > DEBT_BLACKLIST_THRESHOLD ∧
          u.status ≠ UserStatus.Blacklisted then some BlacklistReason.ExcessiveDebt
       else u.blacklistReason) := by
  simp [applyDefaultPenalty, preSaveHook_blacklistReason]

/-- Once blacklisted, any sequence of further default penalties leaves the
blacklist state untouched. -/
lemma penalty_fold_blacklisted (l : List (ℕ × ℚ)) (u : User)
    (h : u.status = UserStatus.Blacklisted) :
    (l.foldl (fun v p => applyDefaultPenalty p.1 p.2 v) u).status =
        UserStatus.Blacklisted ∧
    (l.foldl (fun v p => applyDefaultPenalty p.1 p.2 v) u).blacklistedAt =
        u.blacklistedAt ∧
    (l.foldl (fun v p => applyDefaultPenalty p.1 p.2 v) u).blacklistReason =
        u.blacklistReason := by
  induction l generalizing u with
  | nil => exact ⟨h, rfl, rfl⟩
  | cons p rest ih =>
    have hst : (applyDefaultPenalty p.1 p.2 u).status = UserStatus.Blacklisted := by
      rw [applyDefaultPenalty_status, if_neg]
      · exact h
      · simp [h]
    have hat : (applyDefaultPenalty p.1 p.2 u).blacklistedAt = u.blacklistedAt := by
      rw [applyDefaultPenalty_blacklistedAt, if_neg]
      simp [h]
    have hre : (applyDefaultPenalty p.1 p.2 u).blacklistReason = u.blacklistReason := by
      rw [applyDefaultPenalty_blacklistReason, if_neg]
      simp [h]
    obtain ⟨h1, h2, h3⟩ := ih (applyDefaultPenalty p.1 p.2 u) hst
    exact ⟨h1, h2.trans hat, h3.trans hre⟩

/-- C6: when a default penalty pushes a not-yet-blacklisted wallet's debt
strictly above 500,000 minor units, the account transitions to Blacklisted,
blacklistedAt is stamped with the operation's timestamp, blacklistReason
becomes Excessive Debt, and every later debt-increasing operation leaves
the blacklist state untouched (the transition happens exactly once). -/
theorem autoBlacklist_exactly_once (now : ℕ) (base : ℚ) (u : User)
    (hnb : u.status ≠ UserStatus.Blacklisted)
    (hcross : (applyDefaultPenalty now base u).wallet.debtBalance > 500000) :
    (applyDefaultPenalty now base u).status = UserStatus.Blacklisted ∧
    (applyDefaultPenalty now base u).blacklistedAt = some now ∧
    (applyDefaultPenalty now base u).blacklistReason =
      some BlacklistReason.ExcessiveDebt ∧
    ∀ laterOps : List (ℕ × ℚ),
      (laterOps.foldl (fun v p => applyDefaultPenalty p.1 p.2 v)
          (applyDefaultPenalty now base u)).status = UserStatus.Blacklisted ∧
      (laterOps.foldl (fun v p => applyDefaultPenalty p.1 p.2 v)
          (applyDefaultPenalty now base u)).blacklistedAt = some now ∧
      (laterOps.foldl (fun v p => applyDefaultPenalty p.1 p.2 v)
          (applyDefaultPenalty now base u)).blacklistReason =
        some BlacklistReason.ExcessiveDebt := by
  have hdebt : (applyDefaultPenalty now base u).wallet.debtBalance =
      u.wallet.debtBalance + base * (1 + 5 / 100) := by
    rw [applyDefaultPenalty_wallet]
  have hcond : u.wallet.debtBalance + base * (1 + 5 / 100) >
      DEBT_BLACKLIST_THRESHOLD ∧ u.status ≠ UserStatus.Blacklisted := by
    refine ⟨?_, hnb⟩
    rw [← hdebt]
    exact hcross
  have h1 : (applyDefaultPenalty now base u).status = UserStatus.Blacklisted := by
    rw [applyDefaultPenalty_status, if_pos hcond]
  have h2 : (applyDefaultPenalty now base u).blacklistedAt = some now := by
    rw [applyDefaultPenalty_blacklistedAt, if_pos hcond]
  have h3 : (applyDefaultPenalty now base u).blacklistReason =
      some BlacklistReason.ExcessiveDebt := by
    rw [applyDefaultPenalty_blacklistReason, if_pos hcond]
  refine ⟨h1, h2, h3, fun laterOps => ?_⟩
  obtain ⟨g1, g2, g3⟩ := penalty_fold_blacklisted laterOps _ h1
  exact ⟨g1, g2.trans h2, g3.trans h3⟩

/-- A user carrying 490,000 debt, one 20,000 default away from the
auto-blacklist threshold (mirrors the repository's TEST 5). -/
def uDebt : User :=
  { wallet := { availableBalance := 0, vaultBalance := 0, debtBalance := 490000 },
    trustScore := 400, userTier := UserTier.Bronze, status := UserStatus.Active,
    activeCircles := [], blacklistedAt := none, blacklistReason := none }

/-- Witness for C6 at uDebt: the 20,000 default raises debt to 511,000,
triggering the blacklist; a later penalty does not restamp it. -/
theorem autoBlacklist_exactly_once_witness :
    (applyDefaultPenalty 5 20000 uDebt).status = UserStatus.Blacklisted ∧
    (applyDefaultPenalty 5 20000 uDebt).blacklistedAt = some 5 ∧
    (applyDefaultPenalty 5 20000 uDebt).blacklistReason =
      some BlacklistReason.ExcessiveDebt ∧
    (applyDefaultPenalty 9 1000 (applyDefaultPenalty 5 20000 uDebt)).blacklistedAt
      = some 5 := by
  obtain ⟨h1, h2, h3, h4⟩ := autoBlacklist_exactly_once 5 20000 uDebt
    (by simp [uDebt])
    (by rw [applyDefaultPenalty_wallet]; norm_num [uDebt])
  exact ⟨h1, h2, h3, by simpa using (h4 [(9, 1000)]).2.1⟩

end DebtOperations

section SettlementClaims

lemma payout_reserve_insufficient (now : ℕ) (s : St) (rid : ℕ)
    (hAct : s.circle.status = CircleStatus.Active)
    (hrec : currentRecipient s.circle = some rid)
    (hsf : circleShortfall s.circle > 0)
    (hlow : s.reserve.balance + platformFeeOf s.circle < circleShortfall s.circle) :
    processCirclePayout now s = Except.error PayoutError.ReserveInsufficient := by
  simp only [processCirclePayout, hrec]
  rw [if_neg (by simp [hAct]), if_pos ⟨hsf, hlow⟩]

lemma payout_ok_exists (now : ℕ) (s : St) (rid : ℕ)
    (hAct : s.circle.status = CircleStatus.Active)
    (hrec : currentRecipient s.circle = some rid)
    (hres : ¬(circleShortfall s.circle > 0 ∧
      s.reserve.balance + platformFeeOf s.circle < circleShortfall s.circle)) :
    ∃ p, processCirclePayout now s = Except.ok p := by
  simp only [processCirclePayout, hrec]
  rw [if_neg (by simp [hAct]), if_neg hres]
  exact ⟨_, rfl⟩

/-- The default user record used by the concrete settlement states:
a Bronze, Active user with an empty wallet, trust 400, in circle 1. -/
def uBase : User :=
  { wallet := { availableBalance := 0, vaultBalance := 0, debtBalance := 0 },
    trustScore := 400, userTier := UserTier.Bronze, status := UserStatus.Active,
    activeCircles := [1], blacklistedAt := none, blacklistReason := none }

/-- Two-member circle, both paid, first rotation about to start. -/
def stPaid : St :=
  { circle :=
      { id := 1, contributionAmount := 10000, totalPot := 20000,
        payoutOrder := [1, 2], currentTurn := 0, cycleCount := 0,
        members := [⟨1, PaymentStatus.Paid, 0⟩, ⟨2, PaymentStatus.Paid, 0⟩],
        backstopBalance := 0, totalFeesCollected := 0,
        status := CircleStatus.Active },
    reserve := { balance := 5000, totalDeployed := 0, activeLoans := [] },
    users := fun _ => uBase }

/-- The spec's scenario state: 3 members, contribution 10,000, members 1 and
2 paid, member 3 pending, Bronze recipient 1, reserve at 1,000,000. -/
def stShort : St :=
  { circle :=
      { id := 1, contributionAmount := 10000, totalPot := 30000,
        payoutOrder := [1, 2, 3], currentTurn := 0, cycleCount := 0,
        members := [⟨1, PaymentStatus.Paid, 0⟩, ⟨2, PaymentStatus.Paid, 0⟩,
                    ⟨3, PaymentStatus.Pending, 0⟩],
        backstopBalance := 0, totalFeesCollected := 0,
        status := CircleStatus.Active },
    reserve := { balance := 1000000, totalDeployed := 0, activeLoans := [] },
    users := fun _ => uBase }

/-- Same scenario but the reserve holds only 9,000: even with this round's
450 fee it cannot cover the 10,000 shortfall. -/
def stLow : St :=
  { stShort with
      reserve := { balance := 9000, totalDeployed := 0, activeLoans := [] } }

/-- Same scenario with the reserve at 9,600: below the 10,000 shortfall on
its own, but sufficient once this round's 450 fee is credited. -/
def stMid : St :=
  { stShort with
      reserve := { balance := 9600, totalDeployed := 0, activeLoans := [] } }

/-- C1: for every successful payout settlement (necessarily of an Active
circle), the fee is exactly totalPot × 0.015, netPayout is exactly
totalPot − fee, and the two credited portions add up exactly to netPayout. -/
theorem payout_conservation (now : ℕ) (s s' : St) (r : Receipt)
    (h : processCirclePayout now s = Except.ok (s', r)) :
    r.platformFee = s.circle.totalPot * (15 / 1000) ∧
    r.netPayout = s.circle.totalPot - r.platformFee ∧
    r.availableNow + r.withheldInVault = r.netPayout := by
  obtain ⟨-, -, hfee, hnet, havail, -⟩ := payout_ok_spec now s s' r h
  refine ⟨by rw [hfee]; rfl, by rw [hfee]; exact hnet, by rw [havail]; ring⟩

/-- Witness for C1: the two-member full-collection settlement produces the
receipt (20000, 300, 19700, 3940, 15760, 0, 0, 1), and the theorem's
conservation identities hold on it. -/
theorem payout_conservation_witness :
    (processCirclePayout 0 stPaid).toOption.map
        (fun p => (p.2.platformFee, p.2.netPayout,
                   p.2.availableNow + p.2.withheldInVault)) =
      some (stPaid.circle.totalPot * (15 / 1000),
            stPaid.circle.totalPot - stPaid.circle.totalPot * (15 / 1000),
            stPaid.circle.totalPot - stPaid.circle.totalPot * (15 / 1000)) := by
  cases hres : processCirclePayout 0 stPaid with
  | error e =>
    have hsome : (processCirclePayout 0 stPaid).toOption.isSome = true := by
      norm_num +decide [processCirclePayout, stPaid, uBase, currentRecipient,
        circleShortfall, paidCount, platformFeeOf, withholdingRate, preSaveHook,
        applyDefaultPenalty, recomputeTier, completeCircle, releaseStep,
        DEBT_BLACKLIST_THRESHOLD, TRUST_MIN, TRUST_MAX, Except.toOption]
    rw [hres] at hsome
    simp [Except.toOption] at hsome
  | ok p =>
    obtain ⟨hfee, hnet, hsum⟩ := payout_conservation 0 stPaid p.1 p.2 (by rw [hres])
    simp only [hres, Except.toOption]
    simp [hfee, hnet, hsum]

/-- C4: on every successful settlement, the reserve ends at
balance − shortfall + fee and totalDeployed grows by exactly the shortfall
(shortfall ≥ 0; a zero shortfall draws nothing). -/
theorem backstop_conservation (now : ℕ) (s s' : St) (r : Receipt)
    (h : processCirclePayout now s = Except.ok (s', r))
    (hsf : 0 ≤ circleShortfall s.circle) :
    s'.reserve.balance =
      s.reserve.balance - circleShortfall s.circle + platformFeeOf s.circle ∧
    s'.reserve.totalDeployed =
      s.reserve.totalDeployed + circleShortfall s.circle := by
  obtain ⟨-, -, -, -, -, hloan, hbal, hdep, -⟩ := payout_ok_spec now s s' r h
  by_cases hpos : 0 < circleShortfall s.circle
  · rw [hloan, if_pos hpos] at hbal hdep
    exact ⟨by rw [hbal]; ring, hdep⟩
  · have h0 : circleShortfall s.circle = 0 := le_antisymm (not_lt.mp hpos) hsf
    rw [hloan, if_neg hpos] at hbal hdep
    exact ⟨by rw [hbal, h0]; ring, by rw [hdep, h0]⟩

/-- Witness for C4 at the scenario state: shortfall 10,000, fee 450, so the
reserve moves from 1,000,000 to 990,450 and totalDeployed to 10,000. -/
theorem backstop_conservation_witness :
    (processCirclePayout 0 stShort).toOption.map
        (fun p => (p.1.reserve.balance, p.1.reserve.totalDeployed)) =
      some (stShort.reserve.balance - circleShortfall stShort.circle +
              platformFeeOf stShort.circle,
            stShort.reserve.totalDeployed + circleShortfall stShort.circle) := by
  cases hres : processCirclePayout 0 stShort with
  | error e =>
    have hsome : (processCirclePayout 0 stShort).toOption.isSome = true := by
      norm_num +decide [processCirclePayout, stShort, uBase, currentRecipient,
        circleShortfall, paidCount, platformFeeOf, withholdingRate, preSaveHook,
        applyDefaultPenalty, recomputeTier, completeCircle, releaseStep,
        DEBT_BLACKLIST_THRESHOLD, TRUST_MIN, TRUST_MAX, Except.toOption]
    rw [hres] at hsome
    simp [Except.toOption] at hsome
  | ok p =>
    obtain ⟨hbal, hdep⟩ := backstop_conservation 0 stShort p.1 p.2 (by rw [hres])
      (by norm_num +decide [stShort, circleShortfall, paidCount])
    simp only [hres, Except.toOption]
    simp [hbal, hdep]

/-- C3 (amended): when the positive shortfall exceeds the reserve balance
plus this round's fee, the settlement aborts with ReserveInsufficient and no
state is committed — the error result carries no post-state, so wallets,
reserve and circle counters are unchanged and the recipient is not credited.
The circle's status is left as it was (Active); the code never sets Paused. -/
theorem reserve_insufficient_aborts (now : ℕ) (s : St) (rid : ℕ)
    (hAct : s.circle.status = CircleStatus.Active)
    (hrec : currentRecipient s.circle = some rid)
    (hsf : circleShortfall s.circle > 0)
    (hlow : s.reserve.balance + platformFeeOf s.circle < circleShortfall s.circle) :
    processCirclePayout now s = Except.error PayoutError.ReserveInsufficient ∧
    ∀ s' r, processCirclePayout now s ≠ Except.ok (s', r) := by
  have herr := payout_reserve_insufficient now s rid hAct hrec hsf hlow
  exact ⟨herr, fun s' r hok => by rw [herr] at hok; cases hok⟩

/-- Witness for C3's amended theorem at stLow (reserve 9,000 < 10,000 − 450). -/
theorem reserve_insufficient_aborts_witness :
    processCirclePayout 0 stLow = Except.error PayoutError.ReserveInsufficient := by
  exact (reserve_insufficient_aborts 0 stLow 1 rfl rfl
    (by norm_num +decide [stLow, stShort, circleShortfall, paidCount])
    (by norm_num +decide [stLow, stShort, circleShortfall, paidCount,
      platformFeeOf])).1

/-- Counterexample for C3 as stated: at stLow the settlement aborts with
ReserveInsufficient, but since nothing is committed the circle observable to
callers is the unchanged input circle, whose status is Active — it is never
set to Paused. -/
theorem reserve_insufficient_no_pause_counterexample :
    processCirclePayout 0 stLow = Except.error PayoutError.ReserveInsufficient ∧
    stLow.circle.status = CircleStatus.Active ∧
    CircleStatus.Active ≠ CircleStatus.Paused := by
  refine ⟨?_, rfl, by decide⟩
  norm_num +decide [processCirclePayout, stLow, stShort, uBase, currentRecipient,
    circleShortfall, paidCount, platformFeeOf, withholdingRate, preSaveHook,
    applyDefaultPenalty, recomputeTier, completeCircle, releaseStep,
    DEBT_BLACKLIST_THRESHOLD, TRUST_MIN, TRUST_MAX]

/-- C10: the fee is credited to the reserve before the sufficiency check, so
with a positive shortfall the settlement succeeds exactly when
pre-balance + fee covers the shortfall and fails with ReserveInsufficient
exactly when it does not. -/
theorem fee_credited_before_reserve_check (now : ℕ) (s : St) (rid : ℕ)
    (hAct : s.circle.status = CircleStatus.Active)
    (hrec : currentRecipient s.circle = some rid)
    (hsf : circleShortfall s.circle > 0) :
    ((∃ p, processCirclePayout now s = Except.ok p) ↔
      circleShortfall s.circle ≤ s.reserve.balance + platformFeeOf s.circle) ∧
    (processCirclePayout now s = Except.error PayoutError.ReserveInsufficient ↔
      s.reserve.balance + platformFeeOf s.circle < circleShortfall s.circle) := by
  by_cases hcmp : s.reserve.balance + platformFeeOf s.circle < circleShortfall s.circle
  · have herr := payout_reserve_insufficient now s rid hAct hrec hsf hcmp
    constructor
    · constructor
      · rintro ⟨p, hp⟩
        rw [herr] at hp
        cases hp
      · intro hle
        exact absurd hcmp (not_lt.mpr hle)
    · exact ⟨fun _ => hcmp, fun _ => herr⟩
  · have hok := payout_ok_exists now s rid hAct hrec (fun hc => hcmp hc.2)
    constructor
    · exact ⟨fun _ => not_lt.mp hcmp, fun _ => hok⟩
    · constructor
      · intro herr
        obtain ⟨p, hp⟩ := hok
        rw [hp] at herr
        cases herr
      · intro hc
        exact absurd hc hcmp

/-- Witness for C10 at stMid: the pre-settlement balance 9,600 is below the
10,000 shortfall, yet the settlement succeeds because 9,600 + 450 ≥ 10,000. -/
theorem fee_credited_before_reserve_check_witness :
    stMid.reserve.balance < circleShortfall stMid.circle ∧
    (processCirclePayout 0 stMid).toOption.isSome = true := by
  refine ⟨by norm_num +decide [stMid, stShort, circleShortfall, paidCount], ?_⟩
  obtain ⟨p, hp⟩ := (fee_credited_before_reserve_check 0 stMid 1 rfl rfl
    (by norm_num +decide [stMid, stShort, circleShortfall, paidCount])).1.mpr
    (by norm_num +decide [stMid, stShort, circleShortfall, paidCount, platformFeeOf])
  simp [hp, Except.toOption]

/-- Counterexample for C2 as stated: at the exact claimed scenario the code
produces netPayout 29,550 with 5,910 withheld and 23,640 available, not the
claimed 19,550 / 3,910 / 15,640. -/
theorem scenario_counterexample :
    (processCirclePayout 0 stShort).toOption.map
        (fun p => (p.2.netPayout, p.2.withheldInVault, p.2.availableNow)) =
      some (29550, 5910, 23640) ∧
    ((29550 : ℚ), (5910 : ℚ), (23640 : ℚ)) ≠
      ((19550 : ℚ), (3910 : ℚ), (15640 : ℚ)) := by
  constructor
  · norm_num +decide [processCirclePayout, stShort, uBase, currentRecipient,
      circleShortfall, paidCount, platformFeeOf, withholdingRate, preSaveHook,
      applyDefaultPenalty, recomputeTier, completeCircle, releaseStep,
      DEBT_BLACKLIST_THRESHOLD, TRUST_MIN, TRUST_MAX, Except.toOption]
  · norm_num

/-- C2 (amended): in the claimed scenario, totalPot = 30,000, fee = 450,
shortfall = 10,000 drawn from the backstop (reserve 1,000,000 → 990,450,
totalDeployed 10,000), and the Bronze recipient nets 29,550, split into
5,910 withheld in the vault and 23,640 credited as available. -/
theorem scenario_amended :
    (processCirclePayout 0 stShort).toOption.map
        (fun p => (p.2.grossAmount, p.2.platformFee, p.2.backstopLoan,
                   p.2.netPayout, p.2.withheldInVault, p.2.availableNow,
                   (p.1.users 1).wallet.vaultBalance,
                   (p.1.users 1).wallet.availableBalance,
                   p.1.reserve.balance, p.1.reserve.totalDeployed)) =
      some (30000, 450, 10000, 29550, 5910, 23640, 5910, 23640, 990450, 10000) := by
  norm_num +decide [processCirclePayout, stShort, uBase, currentRecipient,
    circleShortfall, paidCount, platformFeeOf, withholdingRate, preSaveHook,
    applyDefaultPenalty, recomputeTier, completeCircle, releaseStep,
    DEBT_BLACKLIST_THRESHOLD, TRUST_MIN, TRUST_MAX, Except.toOption]

end SettlementClaims

section CompletionClaims

lemma releaseStep_other (cid now : ℕ) (us : ℕ → User) (m : Member) (uid : ℕ)
    (h : uid ≠ m.user) :
    releaseStep cid now us m uid = us uid := by
  simp only [releaseStep]
  split
  · simp [h]
  · rfl

lemma releaseStep_skip (cid now : ℕ) (us : ℕ → User) (m : Member)
    (h : ¬ 0 < (us m.user).wallet.vaultBalance) :
    releaseStep cid now us m = us := by
  simp only [releaseStep]
  rw [if_neg h]

lemma releaseStep_self (cid now : ℕ) (us : ℕ → User) (m : Member)
    (h : 0 < (us m.user).wallet.vaultBalance) :
    releaseStep cid now us m m.user =
      { us m.user with
          wallet := { (us m.user).wallet with
            availableBalance := (us m.user).wallet.availableBalance +
              (us m.user).wallet.vaultBalance,
            vaultBalance := 0 },
          activeCircles :=
            (us m.user).activeCircles.filter (fun c2 => c2 ≠ cid) } := by
  simp only [releaseStep]
  rw [if_pos h]
  simp [preSaveHook_ff]

/-- A member entry whose user has no positive vault is left untouched by the
whole release fold. -/
lemma releaseFold_zero (cid now : ℕ) (l : List Member) (us : ℕ → User) (uid : ℕ)
    (h : (us uid).wallet.vaultBalance ≤ 0) :
    (l.foldl (releaseStep cid now) us) uid = us uid := by
  induction l generalizing us with
  | nil => rfl
  | cons m rest ih =>
    rw [List.foldl_cons]
    by_cases he : uid = m.user
    · subst he
      rw [releaseStep_skip cid now us m (not_lt.mpr h)]
      exact ih us h
    · have hval : releaseStep cid now us m uid = us uid :=
        releaseStep_other cid now us m uid he
      exact (ih (releaseStep cid now us m) (by rw [hval]; exact h)).trans hval

/-- The release fold zeroes the vault of every member, credits it to
available, and removes the circle from the active set of members whose vault
was positive. -/
lemma releaseFold_mem (cid now : ℕ) (l : List Member) (us : ℕ → User) (uid : ℕ)
    (hmem : uid ∈ l.map Member.user)
    (hv : 0 ≤ (us uid).wallet.vaultBalance) :
    ((l.foldl (releaseStep cid now) us) uid).wallet.vaultBalance = 0 ∧
    ((l.foldl (releaseStep cid now) us) uid).wallet.availableBalance =
      (us uid).wallet.availableBalance + (us uid).wallet.vaultBalance ∧
    (0 < (us uid).wallet.vaultBalance →
      cid ∉ ((l.foldl (releaseStep cid now) us) uid).activeCircles) := by
  induction l generalizing us with
  | nil => simp at hmem
  | cons m rest ih =>
    rw [List.foldl_cons]
    by_cases he : uid = m.user
    · subst he
      by_cases hp : 0 < (us m.user).wallet.vaultBalance
      · have hstep := releaseStep_self cid now us m hp
        have hafter : (releaseStep cid now us m m.user).wallet.vaultBalance ≤ 0 := by
          rw [hstep]
        have hfold := releaseFold_zero cid now rest
          (releaseStep cid now us m) m.user hafter
        rw [hfold, hstep]
        refine ⟨rfl, rfl, fun _ => ?_⟩
        simp [List.mem_filter]
      · have h0 : (us m.user).wallet.vaultBalance = 0 :=
          le_antisymm (not_lt.mp hp) hv
        rw [releaseStep_skip cid now us m hp]
        have hfold := releaseFold_zero cid now rest us m.user (le_of_eq h0)
        rw [hfold]
        exact ⟨h0, by rw [h0, add_zero], fun hc => absurd hc hp⟩
    · have hval : releaseStep cid now us m uid = us uid :=
        releaseStep_other cid now us m uid he
      have hmem2 : uid ∈ rest.map Member.user := by
        simp only [List.map_cons, List.mem_cons] at hmem
        exact hmem.resolve_left he
      have hres := ih (releaseStep cid now us m) hmem2 (by rw [hval]; exact hv)
      rwa [hval] at hres

/-- C5 (amended): circle completion sets status Completed and, for every
member with a non-negative vault, moves the entire vault to available; the
circle is removed from the active-circle set of every member whose vault was
positive — members with a zero vault are skipped by the release loop, so the
circle can remain in their active-circle sets. -/
theorem completion_releases_vaults (now : ℕ) (c : Circle) (us : ℕ → User)
    (uid : ℕ) (hmem : uid ∈ c.members.map Member.user)
    (hv : 0 ≤ (us uid).wallet.vaultBalance) :
    (completeCircle now c us).1.status = CircleStatus.Completed ∧
    ((completeCircle now c us).2 uid).wallet.vaultBalance = 0 ∧
    ((completeCircle now c us).2 uid).wallet.availableBalance =
      (us uid).wallet.availableBalance + (us uid).wallet.vaultBalance ∧
    (0 < (us uid).wallet.vaultBalance →
      c.id ∉ ((completeCircle now c us).2 uid).activeCircles) := by
  obtain ⟨h1, h2, h3⟩ := releaseFold_mem c.id now c.members us uid hmem hv
  exact ⟨rfl, h1, h2, h3⟩

/-- Completion-witness circle: one member (user 1) with a positive vault. -/
def cWit : Circle :=
  { id := 3, contributionAmount := 10, totalPot := 10,
    payoutOrder := [1], currentTurn := 0, cycleCount := 1,
    members := [⟨1, PaymentStatus.Pending, 1⟩],
    backstopBalance := 0, totalFeesCollected := 0,
    status := CircleStatus.Active }

/-- Completion-witness user store: user 1 has available 10 and vault 5. -/
def usWit : ℕ → User := fun _ =>
  { wallet := { availableBalance := 10, vaultBalance := 5, debtBalance := 0 },
    trustScore := 400, userTier := UserTier.Bronze, status := UserStatus.Active,
    activeCircles := [3], blacklistedAt := none, blacklistReason := none }

/-- Witness for C5's amended theorem: completing cWit releases user 1's
vault of 5 into available (10 → 15) and removes circle 3 from their set. -/
theorem completion_releases_vaults_witness :
    (completeCircle 0 cWit usWit).1.status = CircleStatus.Completed ∧
    ((completeCircle 0 cWit usWit).2 1).wallet.vaultBalance = 0 ∧
    ((completeCircle 0 cWit usWit).2 1).wallet.availableBalance = 15 ∧
    cWit.id ∉ ((completeCircle 0 cWit usWit).2 1).activeCircles := by
  obtain ⟨h1, h2, h3, h4⟩ := completion_releases_vaults 0 cWit usWit 1
    (by simp [cWit]) (by norm_num [usWit])
  refine ⟨h1, h2, ?_, h4 (by norm_num [usWit])⟩
  rw [h3]
  norm_num [usWit]

/-- The state for the C5 counterexample: a two-member circle about to finish
its final rotation; user 1 has an empty vault, both users list circle 7 as
active. -/
def stFinal : St :=
  { circle :=
      { id := 7, contributionAmount := 10000, totalPot := 20000,
        payoutOrder := [1, 2], currentTurn := 1, cycleCount := 1,
        members := [⟨1, PaymentStatus.Paid, 1⟩, ⟨2, PaymentStatus.Paid, 1⟩],
        backstopBalance := 0, totalFeesCollected := 0,
        status := CircleStatus.Active },
    reserve := { balance := 5000, totalDeployed := 0, activeLoans := [] },
    users := fun _ =>
      { wallet := { availableBalance := 0, vaultBalance := 0, debtBalance := 0 },
        trustScore := 400, userTier := UserTier.Bronze,
        status := UserStatus.Active, activeCircles := [7],
        blacklistedAt := none, blacklistReason := none } }

/-- Counterexample for C5 as stated: the final payout of stFinal wraps the
rotation and completes the circle, yet user 1 (whose vault is zero) still
has circle 7 in their active-circle set afterwards — the release loop skips
zero-vault members, so the circle is not removed from every member's set. -/
theorem completion_counterexample :
    (processCirclePayout 0 stFinal).toOption.map
        (fun p => (p.1.circle.status, (p.1.users 1).wallet.vaultBalance,
                   (p.1.users 1).activeCircles.contains p.1.circle.id)) =
      some (CircleStatus.Completed, 0, true) := by
  norm_num +decide [processCirclePayout, stFinal, currentRecipient,
    circleShortfall, paidCount, platformFeeOf, withholdingRate, preSaveHook,
    applyDefaultPenalty, recomputeTier, completeCircle, releaseStep,
    DEBT_BLACKLIST_THRESHOLD, TRUST_MIN, TRUST_MAX, Except.toOption]

end CompletionClaims

section RotationClaims

lemma markAllPaid_status (c : Circle) : (markAllPaid c).status = c.status := rfl

lemma markAllPaid_payoutOrder (c : Circle) :
    (markAllPaid c).payoutOrder = c.payoutOrder := rfl

lemma markAllPaid_currentTurn (c : Circle) :
    (markAllPaid c).currentTurn = c.currentTurn := rfl

lemma markAllPaid_cycleCount (c : Circle) :
    (markAllPaid c).cycleCount = c.cycleCount := rfl

lemma markAllPaid_totalPot (c : Circle) : (markAllPaid c).totalPot = c.totalPot := rfl

lemma markAllPaid_contribution (c : Circle) :
    (markAllPaid c).contributionAmount = c.contributionAmount := rfl

lemma markAllPaid_members_length (c : Circle) :
    (markAllPaid c).members.length = c.members.length := by
  simp [markAllPaid]

/-- With full collection and totalPot = memberCount × contribution, a payout
round always settles successfully: the shortfall is zero. -/
lemma round_ok (now : ℕ) (s : St)
    (hAct : s.circle.status = CircleStatus.Active)
    (hne : s.circle.payoutOrder ≠ [])
    (hpot : s.circle.totalPot = s.circle.members.length * s.circle.contributionAmount) :
    ∃ p, processCirclePayout now { s with circle := markAllPaid s.circle } =
      Except.ok p := by
  have hsf : circleShortfall (markAllPaid s.circle) = 0 := by
    rw [markAllPaid_shortfall, hpot, sub_self]
  have hrs : ((currentRecipient (markAllPaid s.circle))).isSome = true :=
    currentRecipient_isSome _ (by rw [markAllPaid_payoutOrder]; exact hne)
  obtain ⟨rid, hrid⟩ := Option.isSome_iff_exists.mp hrs
  exact payout_ok_exists now { s with circle := markAllPaid s.circle } rid hAct hrid
    (by simp [hsf])

/-- After `k` full-collection rounds starting `k` turns before the
wrap-around with cycleCount 0, the run succeeds and ends with
cycleCount 1 and currentTurn 0. -/
lemma runRounds_wraps (now : ℕ) : ∀ (k : ℕ) (s : St),
    s.circle.status = CircleStatus.Active →
    s.circle.totalPot = s.circle.members.length * s.circle.contributionAmount →
    s.circle.cycleCount = 0 →
    1 ≤ k →
    s.circle.currentTurn + k = s.circle.payoutOrder.length →
    ∃ s', runRounds now k s = Except.ok s' ∧
      s'.circle.cycleCount = 1 ∧ s'.circle.currentTurn = 0 := by
  intro k
  induction k with
  | zero => intro s _ _ _ hk _; exact absurd hk (by norm_num)
  | succ k ih =>
    intro s hAct hpot hcc hk hlen
    have hne : s.circle.payoutOrder ≠ [] := by
      intro hnil
      rw [hnil] at hlen
      simp only [List.length_nil] at hlen
      omega
    obtain ⟨p, hp⟩ := round_ok now s hAct hne hpot
    have hspec := payout_ok_spec now _ p.1 p.2 (by rw [hp])
    obtain ⟨-, -, -, -, -, -, -, -, -, hpo, hcon, hpot2, hmem, hturn, hcyc, hstat⟩ :=
      hspec
    have hrun : runRounds now (k + 1) s = runRounds now k p.1 := by
      simp only [runRounds, hp]
    rcases Nat.lt_or_ge 1 (k + 1) with hk2 | hk2
    · -- k ≥ 1: no wrap this round
      have hk1 : 1 ≤ k := by omega
      have hlt : s.circle.currentTurn + 1 < s.circle.payoutOrder.length := by omega
      have hwrapn : (s.circle.currentTurn + 1) % s.circle.payoutOrder.length ≠ 0 := by
        rw [Nat.mod_eq_of_lt hlt]
        omega
      have hturn2 : p.1.circle.currentTurn = s.circle.currentTurn + 1 := by
        rw [hturn, markAllPaid_currentTurn, markAllPaid_payoutOrder,
          Nat.mod_eq_of_lt hlt]
      have hcyc2 : p.1.circle.cycleCount = 0 := by
        rw [hcyc, markAllPaid_currentTurn, markAllPaid_payoutOrder,
          if_neg hwrapn, markAllPaid_cycleCount, hcc]
      have hstat2 : p.1.circle.status = CircleStatus.Active := by
        rw [hstat, if_neg]
        rw [markAllPaid_currentTurn, markAllPaid_payoutOrder]
        intro hand
        exact hwrapn hand.1
      have hpot3 : p.1.circle.totalPot =
          p.1.circle.members.length * p.1.circle.contributionAmount := by
        rw [hpot2, hmem, hcon, markAllPaid_totalPot, markAllPaid_members_length,
          markAllPaid_contribution]
        exact hpot
      have hlen2 : p.1.circle.currentTurn + k = p.1.circle.payoutOrder.length := by
        rw [hturn2, hpo, markAllPaid_payoutOrder]
        omega
      obtain ⟨s', hs', h1, h2⟩ := ih p.1 hstat2 hpot3 hcyc2 hk1 hlen2
      exact ⟨s', by rw [hrun]; exact hs', h1, h2⟩
    · -- k = 0: this is the wrapping round
      have hk0 : k = 0 := by omega
      subst hk0
      have hturnlast : s.circle.currentTurn + 1 = s.circle.payoutOrder.length := hlen
      have hwrap : (s.circle.currentTurn + 1) % s.circle.payoutOrder.length = 0 := by
        rw [hturnlast, Nat.mod_self]
      refine ⟨p.1, by rw [hrun]; rfl, ?_, ?_⟩
      · rw [hcyc, markAllPaid_currentTurn, markAllPaid_payoutOrder, if_pos hwrap,
          markAllPaid_cycleCount, hcc]
      · rw [hturn, markAllPaid_currentTurn, markAllPaid_payoutOrder, hwrap]

/-- C7: starting from an Active circle at currentTurn 0 with cycleCount 0,
after len(payoutOrder) consecutive successful full-collection payouts the
circle has cycleCount 1 and currentTurn 0. -/
theorem full_rotation_idempotent (now : ℕ) (s : St)
    (hAct : s.circle.status = CircleStatus.Active)
    (hturn : s.circle.currentTurn = 0)
    (hcc : s.circle.cycleCount = 0)
    (hne : s.circle.payoutOrder ≠ [])
    (hpot : s.circle.totalPot = s.circle.members.length * s.circle.contributionAmount) :
    ∃ s', runRounds now s.circle.payoutOrder.length s = Except.ok s' ∧
      s'.circle.cycleCount = 1 ∧ s'.circle.currentTurn = 0 :=
  runRounds_wraps now s.circle.payoutOrder.length s hAct hpot hcc
    (List.length_pos.mpr hne) (by rw [hturn, Nat.zero_add])

/-- Witness for C7: the two-member circle stPaid, after two full-collection
rounds, ends with cycleCount 1 and currentTurn 0. -/
theorem full_rotation_idempotent_witness :
    (runRounds 0 stPaid.circle.payoutOrder.length stPaid).toOption.map
        (fun s' => (s'.circle.cycleCount, s'.circle.currentTurn)) = some (1, 0) := by
  obtain ⟨s', hs', h1, h2⟩ := full_rotation_idempotent 0 stPaid rfl rfl rfl
    (by simp [stPaid]) (by norm_num +decide [stPaid])
  rw [hs']
  simp [Except.toOption, h1, h2]

end RotationClaims

end Ajo
